import Mathlib

/-!
Shallow embedding of the incident-correlation and risk-scoring engine
(`src/services/ScoringEngine.ts`) of the change-events service.

Modelling conventions:
* JS `number` arithmetic on scores/weights is modelled over `ℚ`.
* Timestamps (`Date`) are epoch milliseconds, modelled as `ℤ`;
  `Date` subtraction and comparison become integer operations.
* `Math.round` is modelled as `jsRound` (round half toward +infinity,
  the JS semantics for non-negative arguments used here).
* `String.prototype.toLowerCase` is modelled as `jsToLower`
  (ASCII lowercasing, which agrees with JS on the ASCII inputs used).
* `String.prototype.includes` is modelled as `jsIncludes`.
* A JS `Set` built from a list is modelled through `List.dedup`
  (only its size is ever consumed).
* `Array.prototype.sort` (stable in modern JS) is modelled by the stable
  insertion sort `sortDescBy`.
-/

namespace ScoringEngine

/-- JS `Math.round` for the non-negative values produced by the engine:
round half up (toward +infinity). -/
def jsRound (q : ℚ) : ℤ := ⌊q + 1/2⌋

/-- ASCII lowercasing, modelling `String.prototype.toLowerCase` on the
ASCII strings this engine compares. -/
def jsToLower (s : String) : String := String.mk (s.data.map Char.toLower)

/-- `leadMatch pat s` : the character list `pat` is an initial segment of `s`. -/
def leadMatch : List Char → List Char → Bool
  | [], _ => true
  | _ :: _, [] => false
  | p :: ps, c :: cs => p == c && leadMatch ps cs

/-- `hasSub pat s` : `pat` occurs as a contiguous run inside `s`. -/
def hasSub (pat : List Char) : List Char → Bool
  | [] => pat.isEmpty
  | c :: cs => leadMatch pat (c :: cs) || hasSub pat cs

/-- Models `s.includes(pat)` on JS strings. -/
def jsIncludes (s pat : String) : Bool := hasSub pat.toList s.toList

/-- Risk level (`'critical' | 'high' | 'medium' | 'low'`). -/
inductive Level where
  | critical
  | high
  | medium
  | low
deriving DecidableEq, Repr

/-- The literal string a `Level` denotes in the TS source. -/
def Level.str : Level → String
  | .critical => "critical"
  | .high => "high"
  | .medium => "medium"
  | .low => "low"

/-- The `meta` keys the engine reads (`meta` is an open JSON map in TS;
only these keys are consumed by the scoring code). -/
structure Meta where
  rollback_available : Option Bool
  affects_all_users : Bool
  breaking_change : Bool
  database_migration : Bool
  author : Option String
deriving DecidableEq, Repr

/-- A change event, as consumed by the engine (`occurred_at` in epoch ms). -/
structure ChangeEvent where
  id : String
  occurred_at : ℤ
  service : String
  environment : String
  type : String
  source : String
  summary : String
  meta : Option Meta
deriving DecidableEq, Repr

/-- `IncidentContext` (`incidentAt` in epoch ms). -/
structure IncidentContext where
  incidentAt : ℤ
  service : Option String
  environment : Option String
  severity : Option Level
  description : Option String
deriving DecidableEq, Repr

/-- `ScoreFactor`. -/
structure ScoreFactor where
  name : String
  score : ℚ
  weight : ℚ
  description : String
  evidence : List String
deriving DecidableEq, Repr

/-- `ScoreResult` (`score` is the rounded integer). -/
structure ScoreResult where
  score : ℤ
  level : Level
  explanation : String
  factors : List ScoreFactor
  recommendations : List String
deriving DecidableEq, Repr

/-- One correlation found across a batch of events. -/
structure Correlation where
  events : List ChangeEvent
  description : String
  riskIncrease : ℚ
deriving DecidableEq, Repr

/-- One entry of `individualScores`. -/
structure IndividualScore where
  event : ChangeEvent
  score : ScoreResult
deriving DecidableEq, Repr

/-- The structure returned by `scoreMultipleEvents`. -/
structure ScoreBatch where
  overallScore : ScoreResult
  individualScores : List IndividualScore
  correlations : List Correlation
deriving DecidableEq, Repr

/-- The five factor weights (`SCORE_WEIGHTS`). -/
structure Weights where
  TIMING_PROXIMITY : ℚ
  EVENT_TYPE_RISK : ℚ
  SERVICE_CRITICALITY : ℚ
  CHANGE_FREQUENCY : ℚ
  BLAST_RADIUS : ℚ

/-- `SCORE_WEIGHTS` constant table. -/
def SCORE_WEIGHTS : Weights :=
  ⟨0.3, 0.25, 0.2, 0.15, 0.1⟩

/-- `EVENT_TYPE_SCORES` record, as a partial lookup keyed by the
(lower-cased) event type. -/
def EVENT_TYPE_SCORES (k : String) : Option ℚ :=
  if k = "deployment" then some 70
  else if k = "migration" then some 85
  else if k = "config-change" then some 60
  else if k = "infrastructure" then some 75
  else if k = "rollback" then some 40
  else if k = "hotfix" then some 80
  else if k = "feature-flag" then some 50
  else if k = "scaling" then some 45
  else if k = "maintenance" then some 30
  else none

/-- `ENVIRONMENT_MULTIPLIERS` record. -/
def ENVIRONMENT_MULTIPLIERS (k : String) : Option ℚ :=
  if k = "prod" then some 1
  else if k = "production" then some 1
  else if k = "staging" then some 0.7
  else if k = "dev" then some 0.3
  else if k = "development" then some 0.3
  else if k = "test" then some 0.2
  else none

/-- `this.ENVIRONMENT_MULTIPLIERS[event.environment.toLowerCase()] || 0.5`
(every present multiplier is a truthy non-zero number, so `||` only
catches the missing-key case). -/
def envMultiplierOf (environment : String) : ℚ :=
  match ENVIRONMENT_MULTIPLIERS (jsToLower environment) with
  | some m => m
  | none => 0.5

/-- `this.EVENT_TYPE_SCORES[event.type.toLowerCase()] || 50`
(every present score is truthy, so `||` only catches the missing key). -/
def eventTypeBase (t : String) : ℚ :=
  match EVENT_TYPE_SCORES t with
  | some v => v
  | none => 50

/-- `minutesDiff` of `calculateTimingProximity`:
`(context.incidentAt.getTime() - event.occurred_at.getTime()) / (1000*60)`. -/
def minutesDiffQ (event : ChangeEvent) (context : IncidentContext) : ℚ :=
  ((context.incidentAt - event.occurred_at : ℤ) : ℚ) / (1000 * 60)

/-- `calculateTimingProximity`.  The source assigns `score`,
`description` and the `evidence` pushes inside one if/else chain; that
chain is modelled as one conditional producing the
(score, description, evidence) triple. -/
def calculateTimingProximity (event : ChangeEvent) (context : IncidentContext) : ScoreFactor :=
  let minutesDiff := minutesDiffQ event context
  let m := jsRound minutesDiff
  let hrs := jsRound (minutesDiff / 60)
  let sde : ℚ × String × List String :=
    if minutesDiff < 0 then
      (0, "Event occurred after incident",
        ["Change happened after the incident occurred"])
    else if minutesDiff ≤ 5 then
      (100, "Extremely close timing - very high correlation risk",
        [s!"Change occurred only {m} minutes before incident"])
    else if minutesDiff ≤ 15 then
      (85, "Very close timing - high correlation risk",
        [s!"Change occurred {m} minutes before incident"])
    else if minutesDiff ≤ 30 then
      (70, "Close timing - moderate correlation risk",
        [s!"Change occurred {m} minutes before incident"])
    else if minutesDiff ≤ 60 then
      (50, "Recent timing - some correlation risk",
        [s!"Change occurred {m} minutes before incident"])
    else if minutesDiff ≤ 120 then
      (30, "Moderately recent - low correlation risk",
        [s!"Change occurred {hrs} hours before incident"])
    else
      (10, "Distant timing - minimal correlation risk",
        [s!"Change occurred {hrs} hours before incident"])
  ⟨"Timing Proximity", sde.1, SCORE_WEIGHTS.TIMING_PROXIMITY, sde.2.1, sde.2.2⟩

/-- The description/evidence switch of `calculateEventTypeRisk`. -/
def eventTypeNarrative (event : ChangeEvent) : String × List String :=
  let t := event.type
  if jsToLower event.type = "deployment" then
    ("Code deployments can introduce bugs or breaking changes",
      ["New code deployment"] ++
        -- `event.meta?.rollback_available === false`
        (if (match event.meta with
              | some m => m.rollback_available == some false
              | none => false) then
          ["No rollback mechanism available"]
        else []))
  else if jsToLower event.type = "migration" then
    ("Database migrations are high-risk operations",
      ["Database schema or data changes",
       "Potential for data corruption or performance issues"])
  else if jsToLower event.type = "hotfix" then
    ("Hotfixes are rushed changes with higher error probability",
      ["Emergency fix deployed",
       "Likely bypassed normal testing procedures"])
  else if jsToLower event.type = "infrastructure" then
    ("Infrastructure changes can affect system stability",
      ["Infrastructure or configuration changes"])
  else if jsToLower event.type = "rollback" then
    ("Rollbacks indicate previous issues and can cause new problems",
      ["Rollback operation performed"])
  else
    (s!"{t} changes carry moderate risk",
      [s!"{t} operation performed"])

/-- `calculateEventTypeRisk`. -/
def calculateEventTypeRisk (event : ChangeEvent) : ScoreFactor :=
  let de := eventTypeNarrative event
  ⟨"Event Type Risk", eventTypeBase (jsToLower event.type),
    SCORE_WEIGHTS.EVENT_TYPE_RISK, de.1, de.2⟩

/-- The guard `context.service && event.service === context.service`
(JS truthiness: an empty `context.service` string is falsy). -/
def sameService (event : ChangeEvent) (context : IncidentContext) : Bool :=
  match context.service with
  | some s => (s != "") && (event.service == s)
  | none => false

/-- `calculateServiceCriticality`. -/
def calculateServiceCriticality (event : ChangeEvent) (context : IncidentContext) : ScoreFactor :=
  let sv := event.service
  let sde : ℚ × String × List String :=
    if sameService event context then
      (90, "Change to the same service experiencing the incident",
        [s!"Direct change to affected service: {sv}"])
    else
      let serviceName := jsToLower event.service
      if jsIncludes serviceName "api" || jsIncludes serviceName "gateway" then
        (80, "Change to critical API service",
          ["API services are typically critical for system functionality"])
      else if jsIncludes serviceName "auth" || jsIncludes serviceName "login" then
        (85, "Change to authentication service",
          ["Authentication services affect all user access"])
      else if jsIncludes serviceName "payment" || jsIncludes serviceName "billing" then
        (90, "Change to payment/billing service",
          ["Payment services are business-critical"])
      else if jsIncludes serviceName "database" || jsIncludes serviceName "db" then
        (85, "Change to database service",
          ["Database changes can affect multiple dependent services"])
      else if jsIncludes serviceName "web" || jsIncludes serviceName "frontend" then
        (60, "Change to web/frontend service",
          ["Frontend changes typically have lower system impact"])
      else
        (50, "Change to standard service",
          ["Service criticality not determined from name"])
  ⟨"Service Criticality", sde.1, SCORE_WEIGHTS.SERVICE_CRITICALITY, sde.2.1, sde.2.2⟩

/-- `calculateChangeFrequency`. -/
def calculateChangeFrequency (event : ChangeEvent) (allEvents : List ChangeEvent)
    (context : IncidentContext) : ScoreFactor :=
  let oneDayAgo := context.incidentAt - 24 * 60 * 60 * 1000
  let recentChanges := allEvents.filter fun e =>
    e.service == event.service &&
    decide (e.occurred_at ≥ oneDayAgo) &&
    decide (e.occurred_at ≤ context.incidentAt)
  let n := recentChanges.length
  let sde : ℚ × String × List String :=
    if n ≤ 1 then
      (30, "Infrequent changes - unusual activity",
        ["Very few recent changes to this service",
         "Unusual change activity may indicate higher risk"])
    else if n ≤ 3 then
      (20, "Normal change frequency",
        [s!"{n} changes in past 24 hours"])
    else if n ≤ 6 then
      (40, "High change frequency - increased risk",
        [s!"{n} changes in past 24 hours",
         "High change frequency increases chance of issues"])
    else
      (70, "Very high change frequency - significant risk",
        [s!"{n} changes in past 24 hours",
         "Extremely high change rate indicates instability"])
  ⟨"Change Frequency", sde.1, SCORE_WEIGHTS.CHANGE_FREQUENCY, sde.2.1, sde.2.2⟩

/-- The meta-driven bonus block of `calculateBlastRadius`
(`if (event.meta) { ... }`): returns the added points and the extra
evidence lines, in source order. -/
def blastBonus (event : ChangeEvent) : ℚ × List String :=
  match event.meta with
  | none => (0, [])
  | some m =>
    let b1 : ℚ × List String :=
      if m.affects_all_users then (20, ["Change affects all users"]) else (0, [])
    let b2 : ℚ × List String :=
      if m.breaking_change then (25, ["Breaking change detected"]) else (0, [])
    let b3 : ℚ × List String :=
      if m.database_migration then (15, ["Database migration affects data layer"]) else (0, [])
    (b1.1 + b2.1 + b3.1, b1.2 ++ b2.2 ++ b3.2)

/-- `calculateBlastRadius`. -/
def calculateBlastRadius (event : ChangeEvent) (allEvents : List ChangeEvent) : ScoreFactor :=
  let timeWindow : ℤ := 10 * 60 * 1000
  let simultaneousChanges := allEvents.filter fun e =>
    decide (|e.occurred_at - event.occurred_at| ≤ timeWindow) && (e.id != event.id)
  -- `new Set(...)` with `add`: only the set's size is consumed below.
  let affectedCount := ((simultaneousChanges.map (fun e => e.service)).concat event.service).dedup.length
  let sde : ℚ × String × List String :=
    if affectedCount = 1 then
      (20, "Single service affected",
        ["Change isolated to one service"])
    else if affectedCount ≤ 3 then
      (50, "Multiple services affected",
        [s!"{affectedCount} services changed within 10 minutes"])
    else
      (80, "Wide-reaching changes across many services",
        [s!"{affectedCount} services changed simultaneously",
         "Coordinated changes increase system-wide risk"])
  let bonus := blastBonus event
  ⟨"Blast Radius", min (sde.1 + bonus.1) 100, SCORE_WEIGHTS.BLAST_RADIUS,
    sde.2.1, sde.2.2 ++ bonus.2⟩

/-- `getScoreLevel` (inclusive-lower breakpoints, descending). -/
def getScoreLevel (score : ℚ) : Level :=
  if score ≥ 80 then .critical
  else if score ≥ 60 then .high
  else if score ≥ 40 then .medium
  else .low

/-- The `factors.reduce(...)` of `generateExplanation`: the factor
maximizing `score * weight`, first maximum winning (the comparison is
strict, so earlier factors are kept on ties).  JS `reduce` without an
initial value throws on an empty array; the engine only calls this with
the five-factor list, so the empty case is given an inert placeholder. -/
def reduceTopFactor : List ScoreFactor → ScoreFactor
  | [] => ⟨"", 0, 0, "", []⟩
  | f :: rest =>
    rest.foldl (fun m x => if x.score * x.weight > m.score * m.weight then x else m) f

/-- `generateExplanation`. -/
def generateExplanation (event : ChangeEvent) (_context : IncidentContext)
    (factors : List ScoreFactor) (score : ℚ) : String :=
  let level := getScoreLevel score
  let topFactor := reduceTopFactor factors
  let t := event.type
  let sv := event.service
  let lv := level.str
  let sc := jsRound score
  let tn := jsToLower topFactor.name
  let td := topFactor.description
  s!"This {t} to {sv} has a {lv} risk score of {sc}/100. " ++
  s!"The primary risk factor is {tn}: {td}. " ++
  (if level = .critical ∨ level = .high then
    "This change should be investigated as a potential root cause of the incident."
  else if level = .medium then
    "This change may have contributed to the incident and should be reviewed."
  else
    "This change is unlikely to be the primary cause but may be a contributing factor.")

/-- `generateRecommendations`. -/
def generateRecommendations (event : ChangeEvent) (_context : IncidentContext)
    (factors : List ScoreFactor) (score : ℚ) : List String :=
  let level := getScoreLevel score
  (if level = .critical ∨ level = .high then
    ["Immediately investigate this change as a primary suspect",
     "Check if rollback is possible and safe",
     "Review change approval and testing processes"]
  else []) ++
  (factors.foldr (fun factor acc =>
    ((if factor.name = "Timing Proximity" ∧ factor.score ≥ 80 then
        ["Verify exact timing correlation with incident onset"] else []) ++
     (if factor.name = "Event Type Risk" ∧ event.type = "migration" then
        ["Check database performance and integrity",
         "Review migration logs for errors"] else []) ++
     (if factor.name = "Change Frequency" ∧ factor.score ≥ 60 then
        ["Implement change freezes during high-frequency periods"] else [])) ++ acc) []) ++
  -- `if (event.meta?.author)` : JS truthiness, an empty author string is falsy
  (match event.meta with
   | some m =>
     match m.author with
     | some a => if a ≠ "" then [s!"Contact change author: {a}"] else []
     | none => []
   | none => [])

/-- `scoreChangeEvent`. -/
def scoreChangeEvent (event : ChangeEvent) (context : IncidentContext)
    (allEvents : List ChangeEvent) : ScoreResult :=
  let timingFactor := calculateTimingProximity event context
  let typeFactor := calculateEventTypeRisk event
  let serviceFactor := calculateServiceCriticality event context
  let frequencyFactor := calculateChangeFrequency event allEvents context
  let blastRadiusFactor := calculateBlastRadius event allEvents
  let factors := [timingFactor, typeFactor, serviceFactor, frequencyFactor, blastRadiusFactor]
  let totalScore :=
    timingFactor.score * SCORE_WEIGHTS.TIMING_PROXIMITY +
    typeFactor.score * SCORE_WEIGHTS.EVENT_TYPE_RISK +
    serviceFactor.score * SCORE_WEIGHTS.SERVICE_CRITICALITY +
    frequencyFactor.score * SCORE_WEIGHTS.CHANGE_FREQUENCY +
    blastRadiusFactor.score * SCORE_WEIGHTS.BLAST_RADIUS
  let envMultiplier := envMultiplierOf event.environment
  let scaled := totalScore * envMultiplier
  let finalScore := min (max scaled 0) 100
  ⟨jsRound finalScore, getScoreLevel finalScore,
    generateExplanation event context factors finalScore,
    factors,
    generateRecommendations event context factors finalScore⟩

/-- `findEventCorrelations`.  The `context` parameter is accepted and
ignored, as in the source. -/
def findEventCorrelations (events : List ChangeEvent)
    (_context : IncidentContext) : List Correlation :=
  let deployments := events.filter fun e => e.type == "deployment"
  let migrations := events.filter fun e => e.type == "migration"
  let services := (events.map (fun e => e.service)).dedup
  (if deployments.length ≥ 2 then
    [⟨deployments, "Multiple deployments in sequence can compound issues",
      (deployments.length : ℚ) * 10⟩]
  else []) ++
  (if migrations.length > 0 ∧ deployments.length > 0 then
    [⟨migrations ++ deployments,
      "Database migrations combined with deployments are high-risk", 25⟩]
  else []) ++
  (if services.length ≥ 3 then
    [⟨events, "Changes across multiple services increase system complexity",
      (services.length : ℚ) * 5⟩]
  else [])

/-- Stable insertion step for `sortDescBy`: `x` is placed before the
first element whose key is not larger, so earlier list elements stay
ahead of later elements with an equal key. -/
def insertDescBy (key : α → ℚ) (x : α) : List α → List α
  | [] => [x]
  | y :: ys => if key y > key x then y :: insertDescBy key x ys else x :: y :: ys

/-- Stable descending sort by a rational key; models the stable
`Array.prototype.sort` with comparator `(a, b) => key(b) - key(a)`. -/
def sortDescBy (key : α → ℚ) (l : List α) : List α :=
  l.foldr (insertDescBy key) []

/-- `generateOverallExplanation`. -/
def generateOverallExplanation (individualScores : List IndividualScore)
    (correlations : List Correlation) (score : ℚ) : String :=
  let level := (getScoreLevel score).str
  let highRiskEvents := individualScores.filter fun item => decide (item.score.score ≥ 60)
  let sc := jsRound score
  let n := individualScores.length
  let k := highRiskEvents.length
  let c := correlations.length
  s!"Overall risk assessment: {level} ({sc}/100). " ++
  s!"Analyzed {n} change events. " ++
  (if highRiskEvents.length > 0 then s!"{k} high-risk changes identified. " else "") ++
  (if correlations.length > 0 then
    s!"Found {c} risk-amplifying correlations between changes. "
  else "")

/-- `generateOverallRecommendations`.  NOTE: in the source the
`individualScores.sort(...)` here is `Array.prototype.sort`, which sorts
the caller's array in place; the resulting reordering of the array that
`scoreMultipleEvents` returns is modelled there. -/
def generateOverallRecommendations (individualScores : List IndividualScore)
    (correlations : List Correlation) (score : ℚ) : List String :=
  let level := getScoreLevel score
  let topEvents := (sortDescBy (fun item => (item.score.score : ℚ)) individualScores).take 3
  (if level = .critical then
    ["URGENT: Multiple high-risk changes detected - coordinate immediate investigation",
     "Consider emergency rollback procedures"]
  else if level = .high then
    ["Prioritize investigation of identified high-risk changes",
     "Prepare rollback plans for recent changes"]
  else []) ++
  (topEvents.enum.map fun p =>
    let j := p.1 + 1
    let t := p.2.event.type
    let sv := p.2.event.service
    let sc := p.2.score.score
    s!"{j}. Investigate {t} to {sv} (score: {sc})") ++
  (if correlations.length > 0 then
    ["Analyze change correlations and dependencies"]
  else [])

/-- `calculateOverallRisk`.  The `reduce` sums are modelled as list
sums; the two comparator sorts are the stable `sortDescBy`. -/
def calculateOverallRisk (individualScores : List IndividualScore)
    (correlations : List Correlation) (_context : IncidentContext) : ScoreResult :=
  if individualScores.length = 0 then
    ⟨0, .low, "No change events found in the specified time window.", [],
      ["No recent changes detected - investigate other potential causes"]⟩
  else
    let avgScore :=
      (individualScores.map fun item => (item.score.score : ℚ)).sum /
        (individualScores.length : ℚ)
    let correlationRisk := (correlations.map fun corr => corr.riskIncrease).sum
    let finalScore := min (avgScore + correlationRisk) 100
    let topFactors :=
      (sortDescBy (fun f => f.score * f.weight)
        ((individualScores.map fun item => item.score.factors).flatten)).take 5
    ⟨jsRound finalScore, getScoreLevel finalScore,
      generateOverallExplanation individualScores correlations finalScore,
      topFactors,
      generateOverallRecommendations individualScores correlations finalScore⟩

/-- `scoreMultipleEvents`.  The `individualScores` array handed to
`calculateOverallRisk` is sorted IN PLACE (descending by score) by the
`Array.prototype.sort` inside `generateOverallRecommendations`, which
runs on the non-empty path; the structure returned to the caller
therefore carries the sorted array, not the construction order. -/
def scoreMultipleEvents (events : List ChangeEvent)
    (context : IncidentContext) : ScoreBatch :=
  let individualScores := events.map fun event =>
    IndividualScore.mk event (scoreChangeEvent event context events)
  let correlations := findEventCorrelations events context
  let overallScore := calculateOverallRisk individualScores correlations context
  let returnedIndividualScores :=
    if individualScores.length = 0 then individualScores
    else sortDescBy (fun item => (item.score.score : ℚ)) individualScores
  ⟨overallScore, returnedIndividualScores, correlations⟩

/-- `Math.min(Math.max(x, lo), hi)`. -/
def clampQ (x lo hi : ℚ) : ℚ := min (max x lo) hi

/-- The exact (unrounded) clamped value `finalScore` that
`scoreChangeEvent` rounds into `score` and feeds to `getScoreLevel`. -/
def preRoundScore (event : ChangeEvent) (context : IncidentContext)
    (allEvents : List ChangeEvent) : ℚ :=
  clampQ
    (((calculateTimingProximity event context).score * SCORE_WEIGHTS.TIMING_PROXIMITY +
      (calculateEventTypeRisk event).score * SCORE_WEIGHTS.EVENT_TYPE_RISK +
      (calculateServiceCriticality event context).score * SCORE_WEIGHTS.SERVICE_CRITICALITY +
      (calculateChangeFrequency event allEvents context).score * SCORE_WEIGHTS.CHANGE_FREQUENCY +
      (calculateBlastRadius event allEvents).score * SCORE_WEIGHTS.BLAST_RADIUS) *
      envMultiplierOf event.environment)
    0 100

/-- The exact (unrounded) value `finalScore` behind the aggregate
`overallScore` of `scoreMultipleEvents` (0 for the empty batch). -/
def preRoundOverall (events : List ChangeEvent) (context : IncidentContext) : ℚ :=
  if events.length = 0 then 0
  else
    min
      ((events.map fun e => ((scoreChangeEvent e context events).score : ℚ)).sum /
          (events.length : ℚ) +
        ((findEventCorrelations events context).map fun corr => corr.riskIncrease).sum)
      100

/-- A fixed incident instant (epoch ms) for the concrete examples. -/
def incidentT : ℤ := 1758000000000

/-- An incident context carrying no optional fields. -/
def bareCtx : IncidentContext := ⟨incidentT, none, none, none, none⟩

/-- A change event on service "payment-api" (matches both the
payment/billing and the api/gateway name groups), 3 minutes before the
incident. -/
def paymentApiEvent : ChangeEvent :=
  ⟨"p1", incidentT - 180000, "payment-api", "prod", "deployment", "github",
    "deploy payment-api", none⟩

/-- Incident context naming service "checkout". -/
def checkoutCtx : IncidentContext := ⟨incidentT, some "checkout", none, none, none⟩

/-- Migration to "checkout" 3 min before the incident whose meta adds
breaking-change and database-migration blast bonuses; its unrounded
score against `checkoutCtx` and the singleton batch is 79.75. -/
def c2evA : ChangeEvent :=
  ⟨"a", incidentT - 180000, "checkout", "prod", "migration", "github",
    "migrate checkout", some ⟨none, false, true, true, none⟩⟩

/-- Hotfix to "checkout" 3 min before the incident (same meta bonuses);
in the batch `c2batchB` its unrounded score is exactly 80. -/
def c2evB : ChangeEvent :=
  ⟨"b", incidentT - 180000, "checkout", "prod", "hotfix", "github",
    "hotfix checkout", some ⟨none, false, true, true, none⟩⟩

/-- Filler change to "checkout" 30 min before the incident. -/
def c2b1 : ChangeEvent :=
  ⟨"b1", incidentT - 1800000, "checkout", "prod", "config-change", "github", "", none⟩

/-- Filler change to "checkout" 40 min before the incident. -/
def c2b2 : ChangeEvent :=
  ⟨"b2", incidentT - 2400000, "checkout", "prod", "config-change", "github", "", none⟩

/-- Filler change to "checkout" 50 min before the incident. -/
def c2b3 : ChangeEvent :=
  ⟨"b3", incidentT - 3000000, "checkout", "prod", "config-change", "github", "", none⟩

/-- The four-event batch that scores `c2evB` at exactly 80. -/
def c2batchB : List ChangeEvent := [c2evB, c2b1, c2b2, c2b3]

/-- Low-scoring event (maintenance on "alpha" in the test environment,
200 minutes before the incident): individual score 5. -/
def c3e1 : ChangeEvent :=
  ⟨"1", incidentT - 12000000, "alpha", "test", "maintenance", "github", "", none⟩

/-- High-scoring event (migration on "database" in prod, 3 minutes
before the incident): individual score 75. -/
def c3e2 : ChangeEvent :=
  ⟨"2", incidentT - 180000, "database", "prod", "migration", "github", "", none⟩

/-- The batch `[c3e1, c3e2]`, given in ascending-score order. -/
def c3batch : List ChangeEvent := [c3e1, c3e2]

/-- The migration event of the spec's worked example: type "migration",
service "database", environment "prod", 3 minutes before the incident. -/
def c4ev : ChangeEvent :=
  ⟨"m1", incidentT - 180000, "database", "prod", "migration", "github",
    "migrate database", none⟩

/-- The worked example's context: incident on service "database". -/
def c4ctx : IncidentContext := ⟨incidentT, some "database", none, none, none⟩

/-- A deployment whose `type` differs from "deployment" only in letter
case. -/
def casedDeployEvent : ChangeEvent :=
  ⟨"d1", incidentT - 60000, "svcA", "prod", "Deployment", "github", "", none⟩

/-- A second event on a distinct service. -/
def c10e2 : ChangeEvent :=
  ⟨"d2", incidentT - 120000, "svcB", "prod", "config-change", "github", "", none⟩

/-- A third event on a distinct service. -/
def c10e3 : ChangeEvent :=
  ⟨"d3", incidentT - 240000, "svcC", "prod", "config-change", "github", "", none⟩

/-- Batch spanning three services so the cross-service correlation
fires and contains `casedDeployEvent`. -/
def c10batch : List ChangeEvent := [casedDeployEvent, c10e2, c10e3]

theorem timing_score_bounds (e : ChangeEvent) (c : IncidentContext) :
    0 ≤ (calculateTimingProximity e c).score ∧ (calculateTimingProximity e c).score ≤ 100 := by
  unfold calculateTimingProximity
  dsimp only
  split_ifs <;> norm_num

theorem eventTypeBase_bounds (t : String) :
    0 ≤ eventTypeBase t ∧ eventTypeBase t ≤ 100 := by
  unfold eventTypeBase EVENT_TYPE_SCORES
  split_ifs <;> norm_num

theorem typeRisk_score_eq (e : ChangeEvent) :
    (calculateEventTypeRisk e).score = eventTypeBase (jsToLower e.type) := rfl

theorem service_score_bounds (e : ChangeEvent) (c : IncidentContext) :
    0 ≤ (calculateServiceCriticality e c).score ∧
      (calculateServiceCriticality e c).score ≤ 100 := by
  unfold calculateServiceCriticality
  dsimp only
  split_ifs <;> norm_num

theorem frequency_score_bounds (e : ChangeEvent) (a : List ChangeEvent)
    (c : IncidentContext) :
    0 ≤ (calculateChangeFrequency e a c).score ∧
      (calculateChangeFrequency e a c).score ≤ 100 := by
  unfold calculateChangeFrequency
  dsimp only
  split_ifs <;> norm_num

theorem blastBonus_nonneg (e : ChangeEvent) : 0 ≤ (blastBonus e).1 := by
  unfold blastBonus
  cases e.meta <;> dsimp only
  · norm_num
  · split_ifs <;> norm_num

theorem blast_score_bounds (e : ChangeEvent) (a : List ChangeEvent) :
    0 ≤ (calculateBlastRadius e a).score ∧ (calculateBlastRadius e a).score ≤ 100 := by
  have hb := blastBonus_nonneg e
  unfold calculateBlastRadius
  dsimp only
  refine ⟨le_min ?_ (by norm_num), min_le_right _ _⟩
  split_ifs <;> dsimp only <;> linarith

theorem scoreChangeEvent_factors_eq (e : ChangeEvent) (c : IncidentContext)
    (a : List ChangeEvent) :
    (scoreChangeEvent e c a).factors =
      [calculateTimingProximity e c, calculateEventTypeRisk e,
       calculateServiceCriticality e c, calculateChangeFrequency e a c,
       calculateBlastRadius e a] := rfl

theorem scoreChangeEvent_score_eq (e : ChangeEvent) (c : IncidentContext)
    (a : List ChangeEvent) :
    (scoreChangeEvent e c a).score = jsRound (preRoundScore e c a) := rfl

theorem scoreChangeEvent_level_eq (e : ChangeEvent) (c : IncidentContext)
    (a : List ChangeEvent) :
    (scoreChangeEvent e c a).level = getScoreLevel (preRoundScore e c a) := rfl

theorem preRoundScore_bounds (e : ChangeEvent) (c : IncidentContext)
    (a : List ChangeEvent) :
    0 ≤ preRoundScore e c a ∧ preRoundScore e c a ≤ 100 := by
  unfold preRoundScore clampQ
  exact ⟨le_min (le_max_right _ _) (by norm_num), min_le_right _ _⟩

theorem jsRound_bounds {q : ℚ} (h0 : 0 ≤ q) (h1 : q ≤ 100) :
    0 ≤ jsRound q ∧ jsRound q ≤ 100 := by
  unfold jsRound
  constructor
  · exact Int.le_floor.mpr (by push_cast; linarith)
  · have h : ⌊q + 1/2⌋ < (101 : ℤ) := Int.floor_lt.mpr (by push_cast; linarith)
    omega

theorem scoreChangeEvent_score_bounds (e : ChangeEvent) (c : IncidentContext)
    (a : List ChangeEvent) :
    0 ≤ (scoreChangeEvent e c a).score ∧ (scoreChangeEvent e c a).score ≤ 100 := by
  rw [scoreChangeEvent_score_eq]
  exact jsRound_bounds (preRoundScore_bounds e c a).1 (preRoundScore_bounds e c a).2

theorem correlation_risk_nonneg (events : List ChangeEvent) (c : IncidentContext) :
    ∀ corr ∈ findEventCorrelations events c, 0 ≤ corr.riskIncrease := by
  intro corr h
  unfold findEventCorrelations at h
  simp only [List.mem_append] at h
  rcases h with (h | h) | h <;> split_ifs at h <;>
    simp only [List.mem_singleton, List.not_mem_nil] at h <;>
    try subst h
  · positivity
  · norm_num
  · positivity

/-- C7: for the empty batch, `scoreMultipleEvents` returns an overall
assessment with score 0, level low, the exact explanation string, an
empty factors list and exactly one investigate-other-causes
recommendation; a valid result, not an error. -/
theorem C7_empty_batch (ctx : IncidentContext) :
    scoreMultipleEvents [] ctx =
      ⟨⟨0, .low, "No change events found in the specified time window.", [],
        ["No recent changes detected - investigate other potential causes"]⟩,
       [], []⟩ := rfl

/-- C4: the spec's worked example — a "migration" on service "database"
in "prod", 3 minutes before an incident on the same service, alone in
the batch — yields factor scores 100/85/90/30/20, weighted sum 75.75,
environment multiplier 1.0, final score 76 and level high. -/
theorem C4_worked_example :
    ((scoreChangeEvent c4ev c4ctx [c4ev]).factors.map fun f => f.name) =
      ["Timing Proximity", "Event Type Risk", "Service Criticality",
       "Change Frequency", "Blast Radius"] ∧
    ((scoreChangeEvent c4ev c4ctx [c4ev]).factors.map fun f => f.score) =
      [100, 85, 90, 30, 20] ∧
    (((scoreChangeEvent c4ev c4ctx [c4ev]).factors.map fun f => f.score * f.weight).sum) =
      75.75 ∧
    envMultiplierOf c4ev.environment = 1 ∧
    (scoreChangeEvent c4ev c4ctx [c4ev]).score = 76 ∧
    (scoreChangeEvent c4ev c4ctx [c4ev]).level = Level.high := by
  with_unfolding_all decide

/-- C1 counterexample: the service name "payment-api" contains "payment",
so the claim's priority order assigns 90, but the code checks the
api/gateway group first and returns 80. -/
theorem C1_counterexample :
    (calculateServiceCriticality paymentApiEvent bareCtx).score = 80 ∧
    (calculateServiceCriticality paymentApiEvent bareCtx).score ≠ 90 := by
  with_unfolding_all decide

/-- C1 (amended): when the same-service branch does not fire, the factor
score comes from substring groups checked in the order the code uses —
api/gateway→80 first, then auth/login→85, payment/billing→90,
database/db→85, web/frontend→60, default 50 — so "payment-api" scores
80, the api group's value. -/
theorem C1_service_priority (e : ChangeEvent) (c : IncidentContext)
    (h : sameService e c = false) :
    (calculateServiceCriticality e c).score =
      (if jsIncludes (jsToLower e.service) "api" ||
          jsIncludes (jsToLower e.service) "gateway" then 80
       else if jsIncludes (jsToLower e.service) "auth" ||
          jsIncludes (jsToLower e.service) "login" then 85
       else if jsIncludes (jsToLower e.service) "payment" ||
          jsIncludes (jsToLower e.service) "billing" then 90
       else if jsIncludes (jsToLower e.service) "database" ||
          jsIncludes (jsToLower e.service) "db" then 85
       else if jsIncludes (jsToLower e.service) "web" ||
          jsIncludes (jsToLower e.service) "frontend" then 60
       else 50) := by
  unfold calculateServiceCriticality
  simp only [h, Bool.false_eq_true, if_false]
  split_ifs <;> rfl

theorem C1_service_priority_witness :
    sameService paymentApiEvent bareCtx = false ∧
    (calculateServiceCriticality paymentApiEvent bareCtx).score =
      (if jsIncludes (jsToLower paymentApiEvent.service) "api" ||
          jsIncludes (jsToLower paymentApiEvent.service) "gateway" then 80
       else if jsIncludes (jsToLower paymentApiEvent.service) "auth" ||
          jsIncludes (jsToLower paymentApiEvent.service) "login" then 85
       else if jsIncludes (jsToLower paymentApiEvent.service) "payment" ||
          jsIncludes (jsToLower paymentApiEvent.service) "billing" then 90
       else if jsIncludes (jsToLower paymentApiEvent.service) "database" ||
          jsIncludes (jsToLower paymentApiEvent.service) "db" then 85
       else if jsIncludes (jsToLower paymentApiEvent.service) "web" ||
          jsIncludes (jsToLower paymentApiEvent.service) "frontend" then 60
       else 50) :=
  ⟨by decide, C1_service_priority paymentApiEvent bareCtx (by decide)⟩

theorem overall_proj_eq (events : List ChangeEvent) (ctx : IncidentContext) :
    (scoreMultipleEvents events ctx).overallScore.level =
      getScoreLevel (preRoundOverall events ctx) ∧
    (scoreMultipleEvents events ctx).overallScore.score =
      jsRound (preRoundOverall events ctx) := by
  unfold scoreMultipleEvents calculateOverallRisk preRoundOverall
  rcases events with _ | ⟨e, es⟩
  · exact ⟨by with_unfolding_all rfl, by with_unfolding_all rfl⟩
  · refine ⟨?_, ?_⟩ <;>
      simp only [List.length_map, List.length_cons, Nat.succ_ne_zero, if_false,
        List.map_map, Function.comp_def]

/-- C2 counterexample: `c2evA` has unrounded score 79.75, which rounds
to a returned score of 80 yet level high; `c2evB` (in its batch) has
unrounded score exactly 80, the same returned score 80, but level
critical.  So the level is not a function of the returned rounded score,
and a returned score of 80 does not force level critical. -/
theorem C2_counterexample :
    (scoreChangeEvent c2evA checkoutCtx [c2evA]).score = 80 ∧
    (scoreChangeEvent c2evA checkoutCtx [c2evA]).level = Level.high ∧
    (scoreChangeEvent c2evA checkoutCtx [c2evA]).level ≠ Level.critical ∧
    (scoreChangeEvent c2evB checkoutCtx c2batchB).score = 80 ∧
    (scoreChangeEvent c2evB checkoutCtx c2batchB).level = Level.critical := by
  with_unfolding_all decide

/-- C2 (amended): the `level` of every ScoreResult returned by
`scoreChangeEvent` (and of the aggregate of `scoreMultipleEvents`) is
the fixed-breakpoint discretization of the UNROUNDED clamped score,
while the returned `score` field is that value rounded; the breakpoints
(score≥80 critical, ≥60 high, ≥40 medium, else low) apply to the
unrounded value, so results with the same rounded score can carry
different levels. -/
theorem C2_level_of_unrounded (e : ChangeEvent) (c : IncidentContext)
    (a : List ChangeEvent) (events : List ChangeEvent) (ctx : IncidentContext) :
    (scoreChangeEvent e c a).level = getScoreLevel (preRoundScore e c a) ∧
    (scoreChangeEvent e c a).score = jsRound (preRoundScore e c a) ∧
    (scoreMultipleEvents events ctx).overallScore.level =
      getScoreLevel (preRoundOverall events ctx) ∧
    (scoreMultipleEvents events ctx).overallScore.score =
      jsRound (preRoundOverall events ctx) ∧
    (∀ q : ℚ, (getScoreLevel q = Level.critical ↔ 80 ≤ q) ∧
      (getScoreLevel q = Level.high ↔ 60 ≤ q ∧ q < 80) ∧
      (getScoreLevel q = Level.medium ↔ 40 ≤ q ∧ q < 60) ∧
      (getScoreLevel q = Level.low ↔ q < 40)) := by
  refine ⟨scoreChangeEvent_level_eq e c a, scoreChangeEvent_score_eq e c a,
    (overall_proj_eq events ctx).1, (overall_proj_eq events ctx).2, ?_⟩
  intro q
  unfold getScoreLevel
  split_ifs <;> refine ⟨?_, ?_, ?_, ?_⟩ <;>
    constructor <;> intro hh <;> first | linarith | rfl | simp_all

/-- C6: for every non-empty batch, the aggregate score equals
`round(clamp(avgScore + correlationRisk, 0, 100))` where `avgScore` is
the mean of the individual scores and `correlationRisk` the sum of all
correlation `riskIncrease` values.  (The code only applies the upper
clamp; the lower clamp at 0 is vacuous because both summands are
non-negative.) -/
theorem C6_overall_formula (events : List ChangeEvent) (ctx : IncidentContext)
    (h : events ≠ []) :
    (scoreMultipleEvents events ctx).overallScore.score =
      jsRound (clampQ
        (((events.map fun e => ((scoreChangeEvent e ctx events).score : ℚ)).sum /
            (events.length : ℚ)) +
          ((findEventCorrelations events ctx).map fun corr => corr.riskIncrease).sum)
        0 100) := by
  rw [(overall_proj_eq events ctx).2]
  congr 1
  unfold preRoundOverall clampQ
  have hlen : events.length ≠ 0 := by simpa using h
  rw [if_neg hlen]
  have havg : 0 ≤ (events.map fun e => ((scoreChangeEvent e ctx events).score : ℚ)).sum /
      (events.length : ℚ) := by
    apply div_nonneg
    · apply List.sum_nonneg
      intro x hx
      simp only [List.mem_map] at hx
      obtain ⟨ev, _, rfl⟩ := hx
      exact_mod_cast (scoreChangeEvent_score_bounds ev ctx events).1
    · positivity
  have hcorr : 0 ≤ ((findEventCorrelations events ctx).map fun corr => corr.riskIncrease).sum := by
    apply List.sum_nonneg
    intro x hx
    simp only [List.mem_map] at hx
    obtain ⟨co, hco, rfl⟩ := hx
    exact correlation_risk_nonneg events ctx co hco
  rw [max_eq_left (add_nonneg havg hcorr)]

theorem C6_overall_formula_witness :
    (c3batch ≠ []) ∧
    (scoreMultipleEvents c3batch bareCtx).overallScore.score =
      jsRound (clampQ
        (((c3batch.map fun e => ((scoreChangeEvent e bareCtx c3batch).score : ℚ)).sum /
            (c3batch.length : ℚ)) +
          ((findEventCorrelations c3batch bareCtx).map fun corr => corr.riskIncrease).sum)
        0 100) :=
  ⟨by decide, C6_overall_formula c3batch bareCtx (by decide)⟩

/-- C3 (code bug): `scoreMultipleEvents` does NOT return
`individualScores` in input order — the `Array.prototype.sort` inside
`generateOverallRecommendations` mutates the array in place, so the
batch `[c3e1, c3e2]` (ids "1","2", scores 5 and 75) comes back as
ids "2","1", sorted descending by score. -/
theorem C3_mutation_observed :
    (c3batch.map fun e => e.id) = ["1", "2"] ∧
    ((scoreMultipleEvents c3batch bareCtx).individualScores.map fun item => item.event.id) =
      ["2", "1"] ∧
    ((scoreMultipleEvents c3batch bareCtx).individualScores.map fun item => item.score.score) =
      [75, 5] := by
  with_unfolding_all decide

/-- C8: for every event, context and batch, all five factor scores lie
in [0,100], the weights are exactly 0.30/0.25/0.20/0.15/0.10 summing to
1, the weighted pre-multiplier sum is at most 100, and the returned
integer score lies in [0,100]. -/
theorem C8_invariants (e : ChangeEvent) (c : IncidentContext) (a : List ChangeEvent) :
    ((scoreChangeEvent e c a).factors.map fun f => f.weight) =
      [0.30, 0.25, 0.20, 0.15, 0.10] ∧
    ((0.30 : ℚ) + 0.25 + 0.20 + 0.15 + 0.10 = 1) ∧
    (∀ f ∈ (scoreChangeEvent e c a).factors, 0 ≤ f.score ∧ f.score ≤ 100) ∧
    ((scoreChangeEvent e c a).factors.map fun f => f.score * f.weight).sum ≤ 100 ∧
    0 ≤ (scoreChangeEvent e c a).score ∧ (scoreChangeEvent e c a).score ≤ 100 := by
  have h1 := timing_score_bounds e c
  have h2 := eventTypeBase_bounds (jsToLower e.type)
  have h3 := service_score_bounds e c
  have h4 := frequency_score_bounds e a c
  have h5 := blast_score_bounds e a
  have w1 : (calculateTimingProximity e c).weight = 0.3 := rfl
  have w2 : (calculateEventTypeRisk e).weight = 0.25 := rfl
  have w3 : (calculateServiceCriticality e c).weight = 0.2 := rfl
  have w4 : (calculateChangeFrequency e a c).weight = 0.15 := rfl
  have w5 : (calculateBlastRadius e a).weight = 0.1 := rfl
  refine ⟨by with_unfolding_all rfl, by norm_num, ?_, ?_,
    (scoreChangeEvent_score_bounds e c a).1, (scoreChangeEvent_score_bounds e c a).2⟩
  · intro f hf
    rw [scoreChangeEvent_factors_eq] at hf
    simp only [List.mem_cons, List.not_mem_nil, or_false] at hf
    rcases hf with rfl | rfl | rfl | rfl | rfl
    · exact h1
    · rw [typeRisk_score_eq]; exact h2
    · exact h3
    · exact h4
    · exact h5
  · rw [scoreChangeEvent_factors_eq]
    simp only [List.map_cons, List.map_nil, List.sum_cons, List.sum_nil, add_zero]
    rw [w1, w2, w3, w4, w5, typeRisk_score_eq]
    nlinarith [h1.1, h1.2, h2.1, h2.2, h3.1, h3.2, h4.1, h4.2, h5.1, h5.2]

set_option maxHeartbeats 1600000 in
/-- C9: the Timing Proximity score is monotonically non-increasing in
`minutesDiff` over events that differ only in `occurred_at`, when both
events are at or before the incident (non-negative `minutesDiff`). -/
theorem C9_timing_monotone (e : ChangeEvent) (ctx : IncidentContext) (t1 t2 : ℤ)
    (h1 : 0 ≤ minutesDiffQ { e with occurred_at := t1 } ctx)
    (h2 : 0 ≤ minutesDiffQ { e with occurred_at := t2 } ctx)
    (h12 : minutesDiffQ { e with occurred_at := t1 } ctx ≤
      minutesDiffQ { e with occurred_at := t2 } ctx) :
    (calculateTimingProximity { e with occurred_at := t2 } ctx).score ≤
      (calculateTimingProximity { e with occurred_at := t1 } ctx).score := by
  unfold calculateTimingProximity
  set d1 := minutesDiffQ { e with occurred_at := t1 } ctx with hd1
  set d2 := minutesDiffQ { e with occurred_at := t2 } ctx with hd2
  clear_value d1 d2
  clear hd1 hd2
  dsimp only
  split_ifs <;> dsimp only <;> linarith

theorem C9_timing_monotone_witness :
    0 ≤ minutesDiffQ { c3e2 with occurred_at := incidentT - 300000 } bareCtx ∧
    0 ≤ minutesDiffQ { c3e2 with occurred_at := incidentT - 1200000 } bareCtx ∧
    minutesDiffQ { c3e2 with occurred_at := incidentT - 300000 } bareCtx ≤
      minutesDiffQ { c3e2 with occurred_at := incidentT - 1200000 } bareCtx ∧
    (calculateTimingProximity { c3e2 with occurred_at := incidentT - 1200000 } bareCtx).score ≤
      (calculateTimingProximity { c3e2 with occurred_at := incidentT - 300000 } bareCtx).score :=
  ⟨by with_unfolding_all decide, by with_unfolding_all decide, by with_unfolding_all decide,
    C9_timing_monotone c3e2 bareCtx (incidentT - 300000) (incidentT - 1200000)
      (by with_unfolding_all decide) (by with_unfolding_all decide)
      (by with_unfolding_all decide)⟩

/-- C5: `findEventCorrelations` returns exactly the correlations of the
three independent checks — a deployment chain (≥2 deployments,
riskIncrease 10 × count), a migration+deployment combination (fixed 25),
and a cross-service correlation (≥3 distinct services, 5 × count) — in
that order, possibly all at once, with overlapping event sets kept. -/
theorem C5_three_checks (events : List ChangeEvent) (ctx : IncidentContext) :
    findEventCorrelations events ctx =
      (if 2 ≤ (events.filter fun e => e.type == "deployment").length then
        [⟨events.filter fun e => e.type == "deployment",
          "Multiple deployments in sequence can compound issues",
          10 * ((events.filter fun e => e.type == "deployment").length : ℚ)⟩]
      else []) ++
      (if 1 ≤ (events.filter fun e => e.type == "migration").length ∧
          1 ≤ (events.filter fun e => e.type == "deployment").length then
        [⟨(events.filter fun e => e.type == "migration") ++
            (events.filter fun e => e.type == "deployment"),
          "Database migrations combined with deployments are high-risk", 25⟩]
      else []) ++
      (if 3 ≤ ((events.map fun e => e.service).dedup).length then
        [⟨events, "Changes across multiple services increase system complexity",
          5 * (((events.map fun e => e.service).dedup).length : ℚ)⟩]
      else []) := by
  unfold findEventCorrelations
  dsimp only
  split_ifs <;> first | rfl | omega | simp [mul_comm]

/-- C10: the Event Type Risk lookup is case-insensitive (any event whose
lower-cased type is "deployment" gets base 70, "migration" gets 85), but
the correlation detector compares `type` with `===`: an event whose type
differs from the exact strings "deployment"/"migration" (e.g. only in
letter case) can only ever appear in the cross-service correlation,
which covers the entire batch. -/
theorem C10_case_sensitivity (e : ChangeEvent) (events : List ChangeEvent)
    (ctx : IncidentContext) :
    (jsToLower e.type = "deployment" → (calculateEventTypeRisk e).score = 70) ∧
    (jsToLower e.type = "migration" → (calculateEventTypeRisk e).score = 85) ∧
    (e.type ≠ "deployment" → e.type ≠ "migration" →
      ∀ corr ∈ findEventCorrelations events ctx, e ∈ corr.events →
        corr.events = events ∧
        corr.description = "Changes across multiple services increase system complexity") := by
  refine ⟨?_, ?_, ?_⟩
  · intro h
    rw [typeRisk_score_eq, h]
    with_unfolding_all rfl
  · intro h
    rw [typeRisk_score_eq, h]
    with_unfolding_all rfl
  · intro hd hm corr hc he
    unfold findEventCorrelations at hc
    simp only [List.mem_append] at hc
    rcases hc with (hc | hc) | hc <;> split_ifs at hc <;>
      simp only [List.mem_singleton, List.not_mem_nil] at hc <;> subst hc
    · exfalso
      have := (List.mem_filter.mp he).2
      exact hd (by simpa using this)
    · exfalso
      dsimp only at he
      rcases List.mem_append.mp he with h' | h'
      · have := (List.mem_filter.mp h').2
        exact hm (by simpa using this)
      · have := (List.mem_filter.mp h').2
        exact hd (by simpa using this)
    · exact ⟨rfl, rfl⟩

theorem C10_case_sensitivity_witness :
    jsToLower casedDeployEvent.type = "deployment" ∧
    (calculateEventTypeRisk casedDeployEvent).score = 70 ∧
    casedDeployEvent.type ≠ "deployment" ∧
    casedDeployEvent.type ≠ "migration" ∧
    ((findEventCorrelations c10batch bareCtx).map
      fun corr => corr.events.map fun ev => ev.id) = [["d1", "d2", "d3"]] ∧
    (∀ corr ∈ findEventCorrelations c10batch bareCtx, casedDeployEvent ∈ corr.events →
      corr.events = c10batch ∧
      corr.description = "Changes across multiple services increase system complexity") :=
  ⟨by decide,
   (C10_case_sensitivity casedDeployEvent c10batch bareCtx).1 (by decide),
   by decide, by decide,
   by with_unfolding_all decide,
   fun corr hc he =>
     (C10_case_sensitivity casedDeployEvent c10batch bareCtx).2.2
       (by decide) (by decide) corr hc he⟩
